import Mathlib

/-!
Verification development for the `tvini_apk_helper` repository
(`src/tvini_helper.py`), a desktop front-end that lists Android devices
through the `adb` bridge tool, launches one `scrcpy` mirror process per
device serial, classifies the mirror process's output lines for APK
installation markers, and performs a best-effort remote version check.

The Python source is shallowly embedded below.  Python strings are Lean
`String`s (whose character content is manipulated as `List Char`), Python
dictionaries with string keys are insertion-ordered association lists with
overwrite-in-place semantics, subprocess invocations are `Except` values
supplied by an environment record, and the `tkinter` callback side effects
are reified as explicit event lists.
-/

namespace Tvini

/-- Fold ASCII letters to lower case, as Python `str.lower` does on the
ASCII fragment relevant to the source's marker strings. -/
def lowerStr (s : String) : String := String.mk (s.data.map Char.toLower)

/-- Strip leading and trailing whitespace from a character list
(both ends), as Python `str.strip`. -/
def stripChars (cs : List Char) : List Char :=
  ((cs.dropWhile Char.isWhitespace).reverse.dropWhile Char.isWhitespace).reverse

/-- Python `str.strip` on strings. -/
def pyStrip (s : String) : String := String.mk (stripChars s.data)

/-- Does `needle` occur as a contiguous substring of `hay`?  Python's
`needle in hay` on strings, over character lists. -/
def containsSubL (needle : List Char) : List Char → Bool
  | [] => needle.isEmpty
  | c :: cs => needle.isPrefixOf (c :: cs) || containsSubL needle cs

/-- Python `needle in hay` on strings. -/
def containsSub (hay needle : String) : Bool := containsSubL needle.data hay.data

/-- Accumulator for whitespace splitting: `acc` holds the reversed
characters of the token currently being read. -/
def splitWSAux : List Char → List Char → List (List Char)
  | [], acc => if acc.isEmpty then [] else [acc.reverse]
  | c :: cs, acc =>
    if c.isWhitespace then
      if acc.isEmpty then splitWSAux cs [] else acc.reverse :: splitWSAux cs []
    else splitWSAux cs (c :: acc)

/-- Python `str.split()` with no argument: split on runs of whitespace,
dropping empty tokens. -/
def pySplit (s : String) : List String := (splitWSAux s.data []).map String.mk

/-- Accumulator-based split on a single separator character; keeps empty
fields, as Python `str.split(sep)` with an explicit separator. -/
def splitCharAux (sep : Char) : List Char → List Char → List (List Char)
  | [], acc => [acc.reverse]
  | c :: cs, acc =>
    if c = sep then acc.reverse :: splitCharAux sep cs []
    else splitCharAux sep cs (c :: acc)

/-- Python `str.split(sep)` with a one-character separator. -/
def pySplitChar (s : String) (sep : Char) : List String :=
  (splitCharAux sep s.data []).map String.mk

/-- Python `str.splitlines` restricted to `\n`-separated text, which is
what `subprocess.run(..., text=True)` delivers after universal-newline
translation.  The source always strips the text first, so no trailing
empty line arises. -/
def pySplitLines (s : String) : List String :=
  if s = "" then [] else pySplitChar s '\x0a'

/-- Numeric value of a list of decimal digit characters. -/
def digitsToNat (ds : List Char) : Nat :=
  ds.foldl (fun n c => 10 * n + (c.toNat - '0'.toNat)) 0

/-- Python `int(s)` on an optionally signed decimal string with optional
surrounding whitespace; `none` models `ValueError`.  (Underscore digit
grouping, which the source never feeds it, is not modelled.) -/
def pyInt? (s : String) : Option Int :=
  let t := stripChars s.data
  let signed : Bool × List Char :=
    match t with
    | '-' :: rest => (true, rest)
    | '+' :: rest => (false, rest)
    | cs => (false, cs)
  if signed.2.isEmpty || !(signed.2.all Char.isDigit) then none
  else some ((if signed.1 then -1 else 1) * (digitsToNat signed.2 : Int))

/-- Insertion-ordered string dictionary, as Python `dict[str, str]`. -/
abbrev Dict := List (String × String)

/-- Python `d[k] = v`: overwrite the existing entry in place (keys are
unique in a `dict`, so replacing the first occurrence is exact), else
append. -/
def dictSet : Dict → String → String → Dict
  | [], k, v => [(k, v)]
  | p :: ps, k, v => if p.1 = k then (k, v) :: ps else p :: dictSet ps k v

/-- Python `d.get(k, default)`. -/
def dictGet (d : Dict) (k dflt : String) : String :=
  match d.find? (fun p => p.1 = k) with
  | some p => p.2
  | none => dflt

/-- Python `a or b` on strings: `b` when `a` is empty (falsy), else `a`. -/
def pyOr (a b : String) : String := if a = "" then b else a

/-! ## Update check (source lines 36, 64-88) -/

/-- Current application version (source line 36). -/
def VERSION : String := "2.0.0"

/-- The source's `_parse_version`: strip, split on dots, convert each part
with `int`; any `ValueError` (missing or non-numeric component) coerces the
whole result to `(0, 0, 0)`.  Python tuples of ints become `List Int`. -/
def parse_version (version_str : String) : List Int :=
  match (pySplitChar (pyStrip version_str) '.').mapM pyInt? with
  | some parts => parts
  | none => [0, 0, 0]

/-- Python `<` on tuples of ints: lexicographic, a strict prefix being
smaller. -/
def tupLt : List Int → List Int → Bool
  | [], [] => false
  | [], _ :: _ => true
  | _ :: _, [] => false
  | a :: xs, b :: ys => if a < b then true else if b < a then false else tupLt xs ys

/-- Payload of the remote update endpoint: the JSON object's `latest`
field when present (`data.get("latest", "0.0.0")` supplies the default),
plus the fields the dialog reads. -/
structure UpdateData where
  latest : Option String
  note : Option String
  url : Option String
deriving DecidableEq, Repr

/-- Failure of the network fetch or of JSON decoding; the source logs it
and falls through to `return None`. -/
inductive FetchErr
  | urlError
  | jsonDecodeError
deriving DecidableEq, Repr

/-- The source's `_check_for_update`, with the network fetch reified as an
`Except` argument: on a successful fetch, returns the metadata exactly
when the remote version tuple is strictly greater than the current one;
on any failure, returns `none`. -/
def check_for_update (fetch : Except FetchErr UpdateData) : Option UpdateData :=
  match fetch with
  | .error _ => none
  | .ok data =>
    if tupLt (parse_version VERSION) (parse_version (data.latest.getD "0.0.0")) = true
    then some data
    else none

/-! ## Mirror output-line classification (source lines 850-869) -/

/-- One reified UI side effect posted by the core back to the responsive
context via `self.after`. -/
inductive UiAction
  | apkStatus (text : String)
  | installPopup (success : Bool)
  | toast (msg : String)
  | cardReset
deriving DecidableEq, Repr

/-- The body of `monitor_output` for one decoded line: strip it, skip it
when blank, lowercase it, then classify by the `if`/`elif` chain of source
lines 858-867.  Each emitted event carries the delay (in ms) passed to
`self.after`. -/
def monitor_line (rawLine : String) : List (Nat × UiAction) :=
  if pyStrip rawLine = "" then []
  else if containsSub (lowerStr (pyStrip rawLine)) "installing" = true
      ∨ containsSub (lowerStr (pyStrip rawLine)) "install " = true then
    [(0, .apkStatus "Installing...")]
  else if containsSub (lowerStr (pyStrip rawLine)) "success" = true then
    [(0, .apkStatus "Success!"), (0, .installPopup true), (3000, .apkStatus "")]
  else if containsSub (lowerStr (pyStrip rawLine)) "failure" = true
      ∨ containsSub (lowerStr (pyStrip rawLine)) "failed" = true
      ∨ containsSub (lowerStr (pyStrip rawLine)) "error" = true then
    [(0, .apkStatus "Failed!"), (0, .installPopup false), (3000, .apkStatus "")]
  else []

/-! ## Bridge tool invocations (source lines 187-261) -/

/-- The exception classes caught around `subprocess.run` in
`get_adb_devices` (source line 194); the per-property helpers catch every
exception, which these cover for subprocess invocations. -/
inductive SubprocErr
  | timeoutExpired
  | fileNotFound
  | osError
deriving DecidableEq, Repr

/-- Outcomes of the per-device bridge subprocess invocations, keyed by the
shell command issued: `getprop <prop>`, `wm size`, `dumpsys battery`.
Each is either an exception or the captured stdout text. -/
structure AdbEnv where
  prop : String → String → Except SubprocErr String
  wmSize : String → Except SubprocErr String
  dumpsysBattery : String → Except SubprocErr String

/-- An environment whose every subprocess invocation returns the given
outcome. -/
def constEnv (r : Except SubprocErr String) : AdbEnv :=
  { prop := fun _ _ => r, wmSize := fun _ => r, dumpsysBattery := fun _ => r }

/-- An environment whose every subprocess invocation times out. -/
def envFail : AdbEnv := constEnv (.error .timeoutExpired)

/-- The source's `_adb_prop`: run `adb -s serial shell getprop prop` with
a 3-second timeout and return the stripped stdout; any exception degrades
to the empty string. -/
def adb_prop (env : AdbEnv) (serial prop : String) : String :=
  match env.prop serial prop with
  | .error _ => ""
  | .ok out => pyStrip out

/-- Match of the regex `\d+x\d+` anchored at the start of the list: a
maximal nonempty digit run, the letter `x`, a maximal nonempty digit run.
(Backtracking inside `\d+` cannot help, since shrinking the run leaves a
digit where `x` is required, so maximal runs are faithful.) -/
def tryWxH (cs : List Char) : Option (List Char) :=
  if cs.takeWhile Char.isDigit = [] then none
  else
    match cs.dropWhile Char.isDigit with
    | [] => none
    | c :: r2 =>
      if c = 'x' then
        if r2.takeWhile Char.isDigit = [] then none
        else some (cs.takeWhile Char.isDigit ++ 'x' :: r2.takeWhile Char.isDigit)
      else none

/-- Python `re.search(r"(\d+x\d+)", s)`: the leftmost match of `tryWxH`. -/
def findWxH : List Char → Option (List Char)
  | [] => none
  | c :: cs =>
    match tryWxH (c :: cs) with
    | some r => some r
    | none => findWxH cs

/-- The source's `_get_resolution`: run `adb -s serial shell wm size`,
search the stdout for the first `\d+x\d+` pattern, and return it; return
the empty string when there is no match or on any exception. -/
def get_resolution (env : AdbEnv) (serial : String) : String :=
  match env.wmSize serial with
  | .error _ => ""
  | .ok out =>
    match findWxH out.data with
    | some r => String.mk r
    | none => ""

/-- Match of the regex `level:\s*(\d+)` anchored at the start of the
list: the literal `level:`, a maximal whitespace run, a maximal nonempty
digit run (captured). -/
def tryBatteryLevel (cs : List Char) : Option Nat :=
  if ("level:".data).isPrefixOf cs then
    let d := ((cs.drop 6).dropWhile Char.isWhitespace).takeWhile Char.isDigit
    if d.isEmpty then none else some (digitsToNat d)
  else none

/-- Python `re.search(r"level:\s*(\d+)", s)`: the leftmost match. -/
def findBatteryLevel : List Char → Option Nat
  | [] => none
  | c :: cs =>
    match tryBatteryLevel (c :: cs) with
    | some n => some n
    | none => findBatteryLevel cs

/-- The source's `_get_battery`: run `adb -s serial shell dumpsys
battery`, extract the first `level:` integer; `none` when absent or on
any exception. -/
def get_battery (env : AdbEnv) (serial : String) : Option Nat :=
  match env.dumpsysBattery serial with
  | .error _ => none
  | .ok out => findBatteryLevel out.data

/-- One parsed device: the `info` dictionary of `get_adb_devices`,
represented as the current values of its `"serial"` and `"status"`
entries (which an auxiliary `serial:`/`status:` token may have
overwritten, exactly as `info[k] = v` does in the source), the
dictionary of its other string entries in insertion order, and the
integer-or-None value of its `"battery"` entry as an `Option`.  The
split representation is observation-faithful: the program reads
individual keys of `info` and never iterates or compares the whole
dictionary. -/
structure DeviceInfo where
  serial : String
  status : String
  props : Dict
  battery : Option Nat
deriving DecidableEq, Repr

/-- Python `part.split(":", 1)` guarded by `":" in part`: split at the
first colon when there is one. -/
def colonSplit (part : String) : Option (String × String) :=
  let k := part.data.takeWhile (fun c => c ≠ ':')
  match part.data.dropWhile (fun c => c ≠ ':') with
  | ':' :: v => some (String.mk k, String.mk v)
  | _ => none

/-- The `for part in parts[2:]` loop of source lines 212-215, acting on
the `info` dictionary represented as the current values of its
`"serial"` and `"status"` entries plus the dictionary of its other
entries: each `info[k] = v` assignment overwrites whichever component
the key `k` addresses, so an auxiliary token with key `"serial"` or
`"status"` overwrites those entries just as in the source. -/
def applyColonTokens : String → String → Dict → List String → String × String × Dict
  | ser, st, d, [] => (ser, st, d)
  | ser, st, d, part :: parts =>
    match colonSplit part with
    | none => applyColonTokens ser st d parts
    | some kv =>
      if kv.1 = "serial" then applyColonTokens kv.2 st d parts
      else if kv.1 = "status" then applyColonTokens ser kv.2 d parts
      else applyColonTokens ser st (dictSet d kv.1 kv.2) parts

/-- Python `del`-like removal of one key from the string dictionary.
Source line 223 overwrites the `"battery"` entry with the non-string
result of the battery query; this embedding keeps that value in the
separate `battery` field, so the string dictionary drops the key. -/
def dictErase (d : Dict) (k : String) : Dict :=
  d.filter (fun p => ¬p.1 = k)

/-- Holds when no colon token in the list has key `"serial"` or
`"status"`, i.e. when the auxiliary tokens cannot overwrite the serial
and status entries of the `info` dictionary. -/
def noKeyCollision (parts : List String) : Bool :=
  parts.all (fun part =>
    match colonSplit part with
    | some kv => ¬(kv.1 = "serial" ∨ kv.1 = "status")
    | none => true)

/-- The property-enrichment block of source lines 217-223 for a device
with status `"device"`: each `getprop` result falls back through Python
`or` — the model to the auxiliary `model:` token or the serial, the
others to the empty string — and resolution is filled from `wm size`. -/
def enrich_props (env : AdbEnv) (serial : String) (d : Dict) : Dict :=
  let d := dictSet d "model"
    (pyOr (adb_prop env serial "ro.product.model") (dictGet d "model" serial))
  let d := dictSet d "manufacturer"
    (pyOr (adb_prop env serial "ro.product.manufacturer") "")
  let d := dictSet d "android_version"
    (pyOr (adb_prop env serial "ro.build.version.release") "")
  let d := dictSet d "sdk"
    (pyOr (adb_prop env serial "ro.build.version.sdk") "")
  dictSet d "resolution" (get_resolution env serial)

/-- The body of the `for line in ...` loop of `get_adb_devices` for one
raw line: strip it; skip it when blank or containing `"offline"`;
tokenize; `parts[1]` defaults to `"unknown"` when absent; discard any
status outside `{"device", "unauthorized"}` (the check uses the local
status variable, token 1); fold the colon tokens of `parts[2:]` over the
dictionary `{"serial": serial, "status": status}` with overwrite
semantics; and, when the local status variable is `"device"`, run the
property-enrichment writes — which use the local `serial` variable
(token 0), not the possibly overwritten dictionary entry — ending with
the battery write that replaces any string `"battery"` entry. -/
def parse_adb_line (env : AdbEnv) (rawLine : String) : Option DeviceInfo :=
  if pyStrip rawLine = "" ∨ containsSub (pyStrip rawLine) "offline" = true then none
  else
    match pySplit (pyStrip rawLine) with
    | [] => none
    | serial :: rest =>
      if rest.headD "unknown" = "device" then
        some { serial := (applyColonTokens serial (rest.headD "unknown") [] (rest.drop 1)).1,
               status := (applyColonTokens serial (rest.headD "unknown") [] (rest.drop 1)).2.1,
               props := dictErase
                 (enrich_props env serial
                   (applyColonTokens serial (rest.headD "unknown") [] (rest.drop 1)).2.2)
                 "battery",
               battery := get_battery env serial }
      else if rest.headD "unknown" = "unauthorized" then
        some { serial := (applyColonTokens serial (rest.headD "unknown") [] (rest.drop 1)).1,
               status := (applyColonTokens serial (rest.headD "unknown") [] (rest.drop 1)).2.1,
               props := (applyColonTokens serial (rest.headD "unknown") [] (rest.drop 1)).2.2,
               battery := none }
      else none

/-- The source's `get_adb_devices`: run `adb devices -l` (reified as the
`Except` argument); on `TimeoutExpired`, `FileNotFoundError` or `OSError`
return the empty list; otherwise strip the stdout, split it into lines,
drop the header line, and accumulate the parsed devices in line order. -/
def get_adb_devices (env : AdbEnv) (run : Except SubprocErr String) : List DeviceInfo :=
  match run with
  | .error _ => []
  | .ok stdout =>
    ((pySplitLines (pyStrip stdout)).drop 1).foldl
      (fun devices line =>
        match parse_adb_line env line with
        | some d => devices ++ [d]
        | none => devices)
      []

/-! ## Device-list reconciliation (source lines 775-814) -/

/-- Python `set(a) == set(b)` on the serial strings. -/
def pySetEq (a b : List String) : Bool :=
  a.all (fun s => b.contains s) && b.all (fun s => a.contains s)

/-- The text written by `_update_count` (source lines 801-807). -/
def update_count_text (count : Nat) : String :=
  if count = 0 then ""
  else if count = 1 then "1 device"
  else toString count ++ " devices"

/-- UI-owned state touched by `_update_device_list`: the stored snapshot,
the device cards (each identified by the device it renders, in packing
order), the device-count label text, and whether the empty state is
shown. -/
structure UiState where
  current_devices : List DeviceInfo
  device_cards : List DeviceInfo
  count_label : String
  showing_empty : Bool
deriving DecidableEq, Repr

/-- The source's `_update_device_list`: when the new list's serial set
and length both match the stored list's, update only the count label and
return; otherwise replace the stored snapshot, update the count, destroy
every card, and either show the empty state (empty list) or rebuild one
card per device in listed order. -/
def update_device_list (st : UiState) (devices : List DeviceInfo) : UiState :=
  let current_serials := st.current_devices.map (fun d => d.serial)
  let new_serials := devices.map (fun d => d.serial)
  if pySetEq current_serials new_serials = true ∧ devices.length = st.current_devices.length then
    { st with count_label := update_count_text devices.length }
  else
    let st1 := { st with current_devices := devices,
                         count_label := update_count_text devices.length,
                         device_cards := [] }
    if devices = [] then { st1 with showing_empty := true }
    else { st1 with device_cards := devices, showing_empty := false }

/-! ## Mirror session tracking (source lines 816-883, 943-949) -/

/-- A tracked `subprocess.Popen` handle, observed only through `poll()`:
`exited = false` models `poll() is None` (still running). -/
structure Proc where
  exited : Bool
deriving DecidableEq, Repr

/-- The `active_mirrors` dictionary: serial to process handle, insertion
ordered. -/
abbrev Mirrors := List (String × Proc)

/-- Python `serial in active_mirrors` / `active_mirrors[serial]`. -/
def mLookup (m : Mirrors) (serial : String) : Option Proc :=
  (m.find? (fun p => p.1 = serial)).map (fun p => p.2)

/-- Python `del active_mirrors[serial]` and `active_mirrors.pop(serial,
None)`: the entry for `serial` is removed. -/
def mErase (m : Mirrors) (serial : String) : Mirrors :=
  m.filter (fun p => p.1 ≠ serial)

/-- Python `active_mirrors[serial] = proc`: overwrite the existing entry
in place (keys are unique in a `dict`), else append. -/
def mInsert : Mirrors → String → Proc → Mirrors
  | [], serial, proc => [(serial, proc)]
  | p :: ps, serial, proc =>
    if p.1 = serial then (serial, proc) :: ps else p :: mInsert ps serial proc

/-- Number of tracked entries for `serial`. -/
def mCount : Mirrors → String → Nat
  | [], _ => 0
  | p :: ps, serial => (if p.1 = serial then 1 else 0) + mCount ps serial

/-- Result of the guard in `_on_device_click` (source lines 816-832):
the `active_mirrors` state it leaves behind, whether the launch thread
was started, and the UI events it posted. -/
structure ClickResult where
  mirrors : Mirrors
  launchStarted : Bool
  events : List UiAction
deriving DecidableEq, Repr

/-- The source's `_on_device_click` up to starting the launch thread:
reject with a toast when scrcpy is missing; when the serial is tracked
and its process has not exited, reject with the busy toast and reset the
card; when the tracked process has exited, evict the stale entry and
proceed; otherwise proceed directly.  `displayName` stands for
`device.get('model', serial)`. -/
def on_device_click (scrcpyFound : Bool) (m : Mirrors) (serial displayName : String) :
    ClickResult :=
  if scrcpyFound = false then
    { mirrors := m, launchStarted := false,
      events := [.toast "scrcpy not found — see README for setup.", .cardReset] }
  else
    match mLookup m serial with
    | some proc =>
      if proc.exited = false then
        { mirrors := m, launchStarted := false,
          events := [.toast ("Already mirroring " ++ displayName), .cardReset] }
      else
        { mirrors := mErase m serial, launchStarted := true,
          events := [.toast ("Launching mirror for " ++ displayName ++ "…")] }
    | none =>
      { mirrors := m, launchStarted := true,
        events := [.toast ("Launching mirror for " ++ displayName ++ "…")] }

/-- Outcome of the `subprocess.Popen` + `proc.wait()` in `launch`: either
the spawn raises, or the process runs to exit having produced the given
stdout and stderr lines. -/
inductive LaunchOutcome
  | spawnFail (msg : String)
  | ran (stdoutLines stderrLines : List String)
deriving DecidableEq, Repr

/-- The source's `launch` closure (source lines 834-882), run to
completion: on spawn success the process is registered in
`active_mirrors` and both output streams are monitored line by line; in
the `finally` block the serial is popped from `active_mirrors` and the
card reset (the session-ended notification) is posted.  The two stream
monitors run concurrently; their emissions are listed here stream by
stream, which fixes one interleaving but keeps the exact multiset of
events. -/
def launch (m : Mirrors) (serial : String) (out : LaunchOutcome) :
    Mirrors × List (Nat × UiAction) :=
  match out with
  | .spawnFail msg =>
    (mErase m serial, [(0, .toast ("Error: " ++ msg)), (0, .cardReset)])
  | .ran stdoutLines stderrLines =>
    let m1 := mInsert m serial { exited := false }
    let evs := (stdoutLines.flatMap monitor_line) ++ (stderrLines.flatMap monitor_line)
    (mErase m1 serial, evs ++ [(0, .cardReset)])

/-! ## Helper lemmas -/

lemma dictGet_dictSet_self (d : Dict) (k v dflt : String) :
    dictGet (dictSet d k v) k dflt = v := by
  induction d with
  | nil => simp [dictSet, dictGet, List.find?]
  | cons p ps ih =>
    by_cases hp : p.1 = k
    · simp [dictSet, dictGet, hp, List.find?]
    · simp only [dictSet, if_neg hp]
      simpa [dictGet, List.find?, hp] using ih

lemma dictGet_dictSet_ne (d : Dict) (k k' v dflt : String) (h : k ≠ k') :
    dictGet (dictSet d k' v) k dflt = dictGet d k dflt := by
  induction d with
  | nil => simp [dictSet, dictGet, List.find?, Ne.symm h]
  | cons p ps ih =>
    by_cases hp : p.1 = k'
    · simp [dictSet, dictGet, hp, List.find?, Ne.symm h]
    · by_cases hk : p.1 = k
      · simp [dictSet, dictGet, hp, hk, List.find?, h]
      · simp only [dictSet, if_neg hp]
        simpa [dictGet, List.find?, hk] using ih

lemma mLookup_mErase_self (m : Mirrors) (serial : String) :
    mLookup (mErase m serial) serial = none := by
  have h : List.find? (fun p => p.1 = serial) (mErase m serial) = none := by
    rw [List.find?_eq_none]
    intro x hx
    simp only [mErase] at hx
    have hmem := List.mem_filter.mp hx
    simp at hmem ⊢
    exact hmem.2
  simp [mLookup, h]

lemma mCount_mErase_self (m : Mirrors) (serial : String) :
    mCount (mErase m serial) serial = 0 := by
  induction m with
  | nil => rfl
  | cons p ps ih =>
    by_cases hp : p.1 = serial
    · simpa [mErase, hp] using ih
    · simpa [mErase, mCount, hp] using ih

lemma mCount_mInsert_le (m : Mirrors) (serial : String) (proc : Proc)
    (h : mCount m serial ≤ 1) : mCount (mInsert m serial proc) serial ≤ 1 := by
  induction m with
  | nil => simp [mInsert, mCount]
  | cons p ps ih =>
    by_cases hp : p.1 = serial
    · have hps : mCount ps serial = 0 := by
        simp [mCount, hp] at h
        omega
      simp [mInsert, hp, mCount, hps]
    · have hps : mCount ps serial ≤ 1 := by
        simp [mCount, hp] at h
        omega
      simpa [mInsert, hp, mCount] using ih hps

lemma adb_fold_eq_filterMap (env : AdbEnv) (lines : List String) (acc : List DeviceInfo) :
    lines.foldl
        (fun devices line =>
          match parse_adb_line env line with
          | some d => devices ++ [d]
          | none => devices)
        acc
      = acc ++ lines.filterMap (parse_adb_line env) := by
  induction lines generalizing acc with
  | nil => simp
  | cons l ls ih =>
    simp only [List.foldl_cons, List.filterMap_cons]
    cases h : parse_adb_line env l with
    | none => simp only [h]; rw [ih]
    | some d => simp only [h]; rw [ih, List.append_assoc]; rfl

lemma get_adb_devices_eq_filterMap (env : AdbEnv) (stdout : String) :
    get_adb_devices env (.ok stdout)
      = ((pySplitLines (pyStrip stdout)).drop 1).filterMap (parse_adb_line env) := by
  simpa [get_adb_devices] using
    adb_fold_eq_filterMap env ((pySplitLines (pyStrip stdout)).drop 1) []

lemma parse_adb_line_serial_indep (env env' : AdbEnv) (line : String) :
    (parse_adb_line env line).map (fun d => d.serial)
      = (parse_adb_line env' line).map (fun d => d.serial) := by
  unfold parse_adb_line
  by_cases h0 : pyStrip line = "" ∨ containsSub (pyStrip line) "offline" = true
  · simp [h0]
  · simp only [if_neg h0]
    cases hs : pySplit (pyStrip line) with
    | nil => rfl
    | cons serial rest =>
      by_cases hd : rest.headD "unknown" = "device"
      · simp only [if_pos hd]
        simp
      · by_cases hu : rest.headD "unknown" = "unauthorized"
        · simp only [if_neg hd, if_pos hu]
        · simp only [if_neg hd, if_neg hu]

lemma tryWxH_some {cs r : List Char} (h : tryWxH cs = some r) :
    ∃ d1 d2 rest, cs = d1 ++ 'x' :: (d2 ++ rest) ∧ r = d1 ++ 'x' :: d2
      ∧ d1 ≠ [] ∧ d2 ≠ []
      ∧ d1.all Char.isDigit = true ∧ d2.all Char.isDigit = true := by
  unfold tryWxH at h
  by_cases h1 : cs.takeWhile Char.isDigit = []
  · simp [h1] at h
  · simp only [if_neg h1] at h
    cases hdrop : cs.dropWhile Char.isDigit with
    | nil => rw [hdrop] at h; simp at h
    | cons c r2 =>
      rw [hdrop] at h
      by_cases hc : c = 'x'
      · simp only [if_pos hc] at h
        by_cases h2 : r2.takeWhile Char.isDigit = []
        · simp [h2] at h
        · simp only [if_neg h2, Option.some.injEq] at h
          have hcs : cs = cs.takeWhile Char.isDigit ++ cs.dropWhile Char.isDigit :=
            (List.takeWhile_append_dropWhile _ _).symm
          rw [hdrop, hc] at hcs
          have hr2 : r2 = r2.takeWhile Char.isDigit ++ r2.dropWhile Char.isDigit :=
            (List.takeWhile_append_dropWhile _ _).symm
          refine ⟨cs.takeWhile Char.isDigit, r2.takeWhile Char.isDigit,
            r2.dropWhile Char.isDigit, ?_, h.symm, h1, h2,
            List.all_takeWhile, List.all_takeWhile⟩
          conv_lhs => rw [hcs]
          rw [← hr2]
      · simp [hc] at h

lemma findWxH_some {cs r : List Char} (h : findWxH cs = some r) :
    ∃ pre d1 d2 rest, cs = pre ++ d1 ++ 'x' :: (d2 ++ rest)
      ∧ r = d1 ++ 'x' :: d2 ∧ d1 ≠ [] ∧ d2 ≠ []
      ∧ d1.all Char.isDigit = true ∧ d2.all Char.isDigit = true := by
  induction cs with
  | nil => simp [findWxH] at h
  | cons c cs ih =>
    simp only [findWxH] at h
    cases ht : tryWxH (c :: cs) with
    | some r' =>
      rw [ht] at h
      obtain ⟨d1, d2, rest, hcs, hr, h1, h2, ha1, ha2⟩ := tryWxH_some ht
      refine ⟨[], d1, d2, rest, by simpa using hcs, ?_, h1, h2, ha1, ha2⟩
      cases h
      exact hr
    | none =>
      rw [ht] at h
      obtain ⟨pre, d1, d2, rest, hcs, hr, h1, h2, ha1, ha2⟩ := ih h
      refine ⟨c :: pre, d1, d2, rest, ?_, hr, h1, h2, ha1, ha2⟩
      rw [List.cons_append, List.cons_append, ← hcs]

lemma getD_one_cons (a : String) (l : List String) (dflt : String) :
    (a :: l).getD 1 dflt = l.headD dflt := by
  cases l <;> rfl

lemma applyColonTokens_no_collision (ser st : String) (d : Dict) (parts : List String)
    (h : noKeyCollision parts = true) :
    (applyColonTokens ser st d parts).1 = ser
    ∧ (applyColonTokens ser st d parts).2.1 = st := by
  induction parts generalizing ser st d with
  | nil => exact ⟨rfl, rfl⟩
  | cons part parts ih =>
    simp only [noKeyCollision, List.all_cons, Bool.and_eq_true] at h
    obtain ⟨hhead, htail⟩ := h
    unfold applyColonTokens
    cases hcs : colonSplit part with
    | none => exact ih ser st d htail
    | some kv =>
      rw [hcs] at hhead
      simp only [decide_eq_true_eq, not_or] at hhead
      dsimp only
      rw [if_neg hhead.1, if_neg hhead.2]
      exact ih ser st (dictSet d kv.1 kv.2) htail

lemma parse_adb_line_overwrite_demo :
    (parse_adb_line envFail "X device serial:Y").map (fun d => d.serial) = some "Y" := by
  decide

lemma parse_adb_line_some {env : AdbEnv} {line : String} {d : DeviceInfo}
    (h : parse_adb_line env line = some d) :
    ∃ serial rest, pySplit (pyStrip line) = serial :: rest
      ∧ d.serial = (applyColonTokens serial (rest.headD "unknown") [] (rest.drop 1)).1
      ∧ d.status = (applyColonTokens serial (rest.headD "unknown") [] (rest.drop 1)).2.1
      ∧ ((rest.headD "unknown" = "device"
            ∧ d.props = dictErase
                (enrich_props env serial
                  (applyColonTokens serial (rest.headD "unknown") [] (rest.drop 1)).2.2)
                "battery"
            ∧ d.battery = get_battery env serial)
        ∨ (rest.headD "unknown" = "unauthorized"
            ∧ d.props = (applyColonTokens serial (rest.headD "unknown") [] (rest.drop 1)).2.2
            ∧ d.battery = none)) := by
  unfold parse_adb_line at h
  by_cases h0 : pyStrip line = "" ∨ containsSub (pyStrip line) "offline" = true
  · rw [if_pos h0] at h
    cases h
  · rw [if_neg h0] at h
    cases hs : pySplit (pyStrip line) with
    | nil =>
      rw [hs] at h
      cases h
    | cons serial rest =>
      rw [hs] at h
      dsimp only at h
      by_cases hb : rest.headD "unknown" = "device"
      · rw [if_pos hb] at h
        simp only [Option.some.injEq] at h
        subst h
        exact ⟨serial, rest, rfl, rfl, rfl, Or.inl ⟨hb, rfl, rfl⟩⟩
      · by_cases hu : rest.headD "unknown" = "unauthorized"
        · rw [if_neg hb, if_pos hu] at h
          simp only [Option.some.injEq] at h
          subst h
          exact ⟨serial, rest, rfl, rfl, rfl, Or.inr ⟨hu, rfl, rfl⟩⟩
        · rw [if_neg hb, if_neg hu] at h
          cases h

lemma monitor_line_filter_cardReset (line : String) :
    (monitor_line line).filter (fun e => e.2 = UiAction.cardReset) = [] := by
  unfold monitor_line
  split
  · rfl
  · split
    · decide
    · split
      · decide
      · split
        · decide
        · rfl

lemma flatMap_monitor_filter_cardReset (lines : List String) :
    ((lines.flatMap monitor_line).filter (fun e => e.2 = UiAction.cardReset)) = [] := by
  induction lines with
  | nil => rfl
  | cons l ls ih =>
    simp only [List.flatMap_cons, List.filter_append, ih,
      monitor_line_filter_cardReset, List.nil_append]

/-! ## Claim theorems -/

/-- C3: for every invocation of `get_adb_devices`, if the bridge
subprocess times out, the executable is missing, or any OS-level launch
failure occurs, the function returns the empty sequence (and, being a
total function over the reified outcomes, never raises to the caller). -/
theorem c3_list_devices_failure_returns_empty (env : AdbEnv) (err : SubprocErr) :
    get_adb_devices env (.error err) = [] := rfl

/-- C9: resolution parsing extracts the first `WIDTHxHEIGHT` digit
pattern from the shell output — `"Physical size: 1080x2340"` yields
`"1080x2340"` — and whenever the scanner yields anything at all the input
really contains such a pattern, so an input with no matching pattern
yields the empty string (the second conjunct shows a concrete such
input). -/
theorem c9_resolution_parsing :
    get_resolution (constEnv (.ok "Physical size: 1080x2340")) "SER" = "1080x2340"
    ∧ get_resolution (constEnv (.ok "Physical size: unknown")) "SER" = ""
    ∧ ∀ cs : List Char, findWxH cs = none
        ∨ ∃ pre d1 d2 rest, cs = pre ++ d1 ++ 'x' :: (d2 ++ rest)
            ∧ d1 ≠ [] ∧ d2 ≠ []
            ∧ d1.all Char.isDigit = true ∧ d2.all Char.isDigit = true := by
  refine ⟨by decide, by decide, fun cs => ?_⟩
  cases h : findWxH cs with
  | none => exact Or.inl rfl
  | some r =>
    obtain ⟨pre, d1, d2, rest, hcs, _, h1, h2, ha1, ha2⟩ := findWxH_some h
    exact Or.inr ⟨pre, d1, d2, rest, hcs, h1, h2, ha1, ha2⟩

/-- C10: a non-blank, non-header bridge output line consisting of a
single token is excluded from the result rather than failing: the
missing status token defaults to `"unknown"`, which is outside
`{"device", "unauthorized"}`, so the line is discarded (and the total
embedding never indexes past the end of the token list). -/
theorem c10_single_token_line_excluded (env : AdbEnv) (line : String)
    (h : (pySplit (pyStrip line)).length = 1) :
    parse_adb_line env line = none := by
  unfold parse_adb_line
  by_cases h0 : pyStrip line = "" ∨ containsSub (pyStrip line) "offline" = true
  · simp [h0]
  · simp only [if_neg h0]
    cases hs : pySplit (pyStrip line) with
    | nil => rfl
    | cons serial rest =>
      have hr : rest = [] := by
        rw [hs] at h
        simpa using h
      subst hr
      dsimp only
      rw [if_neg (by decide), if_neg (by decide)]

/-- Witness for C10 at the single-token line `"emulator-5554"`. -/
theorem c10_witness :
    (pySplit (pyStrip "emulator-5554")).length = 1
    ∧ parse_adb_line envFail "emulator-5554" = none :=
  ⟨by decide, c10_single_token_line_excluded envFail "emulator-5554" (by decide)⟩

/-- C2 counterexample: the line `"INSTALL FAILED"` contains `"failed"`
case-insensitively, yet the code emits only the Installing status for it
— the lowercased line contains `"install "`, and the `elif` chain stops
at the first match — so the three checks are not evaluated
priority-independently and this line does not emit InstallFailure, contrary
to the claim. -/
theorem c2_counterexample :
    containsSub (lowerStr (pyStrip "INSTALL FAILED")) "failed" = true
    ∧ monitor_line "INSTALL FAILED" = [(0, UiAction.apkStatus "Installing...")] := by
  decide

/-- C2 (amended): for every non-blank stripped line, classification is
case-insensitive by substring containment with the three checks tried in
priority order, only the first match emitting: installing markers yield
the Installing status; otherwise `"success"` yields the success status,
popup, and a reset after the fixed 3000 ms delay; otherwise failure
markers yield the failure status, popup, and the same delayed reset. -/
theorem c2_amended_classification (line : String) (hne : ¬pyStrip line = "") :
    (containsSub (lowerStr (pyStrip line)) "installing" = true
        ∨ containsSub (lowerStr (pyStrip line)) "install " = true →
      monitor_line line = [(0, UiAction.apkStatus "Installing...")])
    ∧ (¬(containsSub (lowerStr (pyStrip line)) "installing" = true
          ∨ containsSub (lowerStr (pyStrip line)) "install " = true) →
        containsSub (lowerStr (pyStrip line)) "success" = true →
      monitor_line line
        = [(0, UiAction.apkStatus "Success!"), (0, UiAction.installPopup true),
           (3000, UiAction.apkStatus "")])
    ∧ (¬(containsSub (lowerStr (pyStrip line)) "installing" = true
          ∨ containsSub (lowerStr (pyStrip line)) "install " = true) →
        ¬containsSub (lowerStr (pyStrip line)) "success" = true →
        (containsSub (lowerStr (pyStrip line)) "failure" = true
          ∨ containsSub (lowerStr (pyStrip line)) "failed" = true
          ∨ containsSub (lowerStr (pyStrip line)) "error" = true) →
      monitor_line line
        = [(0, UiAction.apkStatus "Failed!"), (0, UiAction.installPopup false),
           (3000, UiAction.apkStatus "")]) := by
  refine ⟨fun h1 => ?_, fun h1 h2 => ?_, fun h1 h2 h3 => ?_⟩
  · unfold monitor_line
    rw [if_neg hne, if_pos h1]
  · unfold monitor_line
    rw [if_neg hne, if_neg h1, if_pos h2]
  · unfold monitor_line
    rw [if_neg hne, if_neg h1, if_neg h2, if_pos h3]

/-- Witness for the amended C2: `"Success"` yields the success events
with the 3000 ms reset, and an actual `adb` failure line yields the
failure events. -/
theorem c2_amended_witness :
    monitor_line "Success"
      = [(0, UiAction.apkStatus "Success!"), (0, UiAction.installPopup true),
         (3000, UiAction.apkStatus "")]
    ∧ monitor_line "Failure [INSTALL_FAILED_OLDER_SDK]"
      = [(0, UiAction.apkStatus "Failed!"), (0, UiAction.installPopup false),
         (3000, UiAction.apkStatus "")] :=
  ⟨(c2_amended_classification "Success" (by decide)).2.1 (by decide) (by decide),
   (c2_amended_classification "Failure [INSTALL_FAILED_OLDER_SDK]" (by decide)).2.2
     (by decide) (by decide) (by decide)⟩

/-- C8: given a successful fetch, the update check yields the metadata
exactly when the remote version tuple is strictly greater than the
current `"2.0.0"` under component-wise (lexicographic) numeric
comparison; `"1.9.0"` yields no update, `"2.1.0"` yields an update, the
malformed string `"abc"` parses as the zero tuple, and a failed fetch
yields nothing. -/
theorem c8_version_comparison (d : UpdateData) (v : String) (h : d.latest = some v) :
    (check_for_update (.ok d) = some d
      ↔ tupLt (parse_version VERSION) (parse_version v) = true)
    ∧ check_for_update (.ok { latest := some "1.9.0", note := none, url := none }) = none
    ∧ check_for_update (.ok { latest := some "2.1.0", note := none, url := none })
        = some { latest := some "2.1.0", note := none, url := none }
    ∧ parse_version "abc" = [0, 0, 0]
    ∧ (∀ e : FetchErr, check_for_update (.error e) = none) := by
  refine ⟨?_, by decide, by decide, by decide, fun e => rfl⟩
  simp only [check_for_update]
  rw [h]
  simp only [Option.getD_some]
  by_cases hb : tupLt (parse_version VERSION) (parse_version v) = true
  · simp [hb]
  · simp [hb]

/-- C4: `get_adb_devices` parses the post-header lines in bridge order
(the result is the in-order `filterMap` of the lines after dropping the
header, so no re-sorting happens); blank lines, lines containing
`"offline"`, and lines whose status token (token 1, defaulting to
`"unknown"`) is outside `{"device", "unauthorized"}` are all excluded;
every kept line yields a device whose dictionary is the fold of the
colon-split tokens from position 2 on over `{"serial": token 0,
"status": token 1}` with Python's `info[k] = v` overwrite semantics
(enriched by the property queries, keyed on the local token-0 serial,
when token 1 is `"device"`); and in the ordinary case where no auxiliary
token overwrites the `serial`/`status` keys, the device's serial and
status entries are exactly tokens 0 and 1. -/
theorem c4_device_list_parsing (env : AdbEnv) (stdout : String) :
    get_adb_devices env (.ok stdout)
      = ((pySplitLines (pyStrip stdout)).drop 1).filterMap (parse_adb_line env)
    ∧ (∀ line, pyStrip line = "" → parse_adb_line env line = none)
    ∧ (∀ line, containsSub (pyStrip line) "offline" = true →
        parse_adb_line env line = none)
    ∧ (∀ line, ¬(pySplit (pyStrip line)).getD 1 "unknown" = "device" →
        ¬(pySplit (pyStrip line)).getD 1 "unknown" = "unauthorized" →
        parse_adb_line env line = none)
    ∧ (∀ line d, parse_adb_line env line = some d →
        d.serial = (applyColonTokens ((pySplit (pyStrip line)).headD "")
            ((pySplit (pyStrip line)).getD 1 "unknown") []
            ((pySplit (pyStrip line)).drop 2)).1
        ∧ d.status = (applyColonTokens ((pySplit (pyStrip line)).headD "")
            ((pySplit (pyStrip line)).getD 1 "unknown") []
            ((pySplit (pyStrip line)).drop 2)).2.1
        ∧ ((pySplit (pyStrip line)).getD 1 "unknown" = "unauthorized" →
            d.props = (applyColonTokens ((pySplit (pyStrip line)).headD "")
                ((pySplit (pyStrip line)).getD 1 "unknown") []
                ((pySplit (pyStrip line)).drop 2)).2.2)
        ∧ ((pySplit (pyStrip line)).getD 1 "unknown" = "device" →
            d.props = dictErase
              (enrich_props env ((pySplit (pyStrip line)).headD "")
                (applyColonTokens ((pySplit (pyStrip line)).headD "")
                  ((pySplit (pyStrip line)).getD 1 "unknown") []
                  ((pySplit (pyStrip line)).drop 2)).2.2)
              "battery"))
    ∧ (∀ line d, parse_adb_line env line = some d →
        noKeyCollision ((pySplit (pyStrip line)).drop 2) = true →
        d.serial = (pySplit (pyStrip line)).headD ""
        ∧ d.status = (pySplit (pyStrip line)).getD 1 "unknown") := by
  refine ⟨get_adb_devices_eq_filterMap env stdout, ?_, ?_, ?_, ?_, ?_⟩
  · intro line hb
    unfold parse_adb_line
    rw [if_pos (Or.inl hb)]
  · intro line ho
    unfold parse_adb_line
    rw [if_pos (Or.inr ho)]
  · intro line hd hu
    unfold parse_adb_line
    by_cases h0 : pyStrip line = "" ∨ containsSub (pyStrip line) "offline" = true
    · rw [if_pos h0]
    · rw [if_neg h0]
      cases hs : pySplit (pyStrip line) with
      | nil => rfl
      | cons serial rest =>
        rw [hs, getD_one_cons] at hd hu
        dsimp only
        rw [if_neg hd, if_neg hu]
  · intro line d h
    obtain ⟨serial, rest, hs, hser, hst, hcase⟩ := parse_adb_line_some h
    rw [hs, getD_one_cons, List.drop_succ_cons, List.headD_cons]
    refine ⟨hser, hst, ?_, ?_⟩
    · intro hu
      rcases hcase with ⟨hdev, _, _⟩ | ⟨_, hp, _⟩
      · rw [hdev] at hu
        exact absurd hu (by decide)
      · exact hp
    · intro hdev
      rcases hcase with ⟨_, hp, _⟩ | ⟨huu, _, _⟩
      · exact hp
      · rw [huu] at hdev
        exact absurd hdev (by decide)
  · intro line d h hnc
    obtain ⟨serial, rest, hs, hser, hst, _⟩ := parse_adb_line_some h
    rw [hs, List.drop_succ_cons] at hnc
    rw [hs, getD_one_cons, List.headD_cons]
    obtain ⟨h1, h2⟩ :=
      applyColonTokens_no_collision serial (rest.headD "unknown") [] (rest.drop 1) hnc
    constructor
    · rw [hser]
      exact h1
    · rw [hst]
      exact h2

/-- Witness for C4 on a concrete bridge output: an `"unauthorized"`
status line is kept, a `"fastboot"` status line is excluded, the order
of the kept lines follows the tool output, and a collision-free kept
line keeps tokens 0 and 1 as its serial and status. -/
theorem c4_witness :
    get_adb_devices envFail
        (.ok "List of devices attached\nAAA unauthorized\nBBB fastboot\nCCC unauthorized")
      = ((pySplitLines (pyStrip
            "List of devices attached\nAAA unauthorized\nBBB fastboot\nCCC unauthorized")).drop 1).filterMap
          (parse_adb_line envFail)
    ∧ parse_adb_line envFail "BBB fastboot" = none
    ∧ ({ serial := "CCC", status := "unauthorized", props := [],
         battery := none } : DeviceInfo).serial
        = (pySplit (pyStrip "CCC unauthorized")).headD ""
    ∧ ({ serial := "CCC", status := "unauthorized", props := [],
         battery := none } : DeviceInfo).status
        = (pySplit (pyStrip "CCC unauthorized")).getD 1 "unknown" :=
  ⟨(c4_device_list_parsing envFail
      "List of devices attached\nAAA unauthorized\nBBB fastboot\nCCC unauthorized").1,
   (c4_device_list_parsing envFail "").2.2.2.1 "BBB fastboot" (by decide) (by decide),
   ((c4_device_list_parsing envFail "").2.2.2.2.2 "CCC unauthorized"
      { serial := "CCC", status := "unauthorized", props := [], battery := none }
      (by decide) (by decide)).1,
   ((c4_device_list_parsing envFail "").2.2.2.2.2 "CCC unauthorized"
      { serial := "CCC", status := "unauthorized", props := [], battery := none }
      (by decide) (by decide)).2⟩

/-- C6 counterexample: when every property query fails (times out), the
device's `model` property does not degrade to empty-string or absent —
it falls back to the serial (`"ABC"`), which is present and non-empty,
because the source writes `_adb_prop(...) or info.get("model", serial)`.
The other claim conjuncts hold, but the universally quantified claim is
false at this input. -/
theorem c6_counterexample :
    (get_adb_devices envFail (.ok "List of devices attached\nABC device")).map
        (fun d => dictGet d.props "model" "ABSENT") = ["ABC"]
    ∧ ¬("ABC" : String) = "" := by
  decide

/-- C6 (amended): any property-query failure degrades that single
property without aborting the listing — `manufacturer`,
`android_version`, `sdk` and `resolution` degrade to the empty string
and `battery` to absent, while `model` falls back to the auxiliary model
token parsed from the device line or, failing that, to the serial — and
the set and order of returned devices never depend on the property-query
environment, so the device still appears in the returned sequence. -/
theorem c6_amended_property_degradation (env env' : AdbEnv)
    (stdout serial : String) (d : Dict) :
    (get_adb_devices env (.ok stdout)).map (fun dev => dev.serial)
      = (get_adb_devices env' (.ok stdout)).map (fun dev => dev.serial)
    ∧ dictGet (enrich_props envFail serial d) "model" "ABSENT" = dictGet d "model" serial
    ∧ dictGet (enrich_props envFail serial d) "manufacturer" "ABSENT" = ""
    ∧ dictGet (enrich_props envFail serial d) "android_version" "ABSENT" = ""
    ∧ dictGet (enrich_props envFail serial d) "sdk" "ABSENT" = ""
    ∧ dictGet (enrich_props envFail serial d) "resolution" "ABSENT" = ""
    ∧ get_battery envFail serial = none
    ∧ get_resolution envFail serial = ""
    ∧ adb_prop envFail serial "ro.product.model" = "" := by
  have hprop : ∀ p, adb_prop envFail serial p = "" := fun _ => rfl
  have hres : get_resolution envFail serial = "" := rfl
  have hpyOr : ∀ x, pyOr "" x = x := fun _ => rfl
  constructor
  · rw [get_adb_devices_eq_filterMap, get_adb_devices_eq_filterMap,
      List.map_filterMap, List.map_filterMap]
    exact List.filterMap_congr (fun line _ => parse_adb_line_serial_indep env env' line)
  refine ⟨?_, ?_, ?_, ?_, ?_, rfl, rfl, rfl⟩
  all_goals
    unfold enrich_props
    dsimp only
    rw [hprop, hprop, hprop, hprop, hres]
    simp only [hpyOr]
  · rw [dictGet_dictSet_ne _ _ _ _ _ (by decide), dictGet_dictSet_ne _ _ _ _ _ (by decide),
      dictGet_dictSet_ne _ _ _ _ _ (by decide), dictGet_dictSet_ne _ _ _ _ _ (by decide),
      dictGet_dictSet_self]
  · rw [dictGet_dictSet_ne _ _ _ _ _ (by decide), dictGet_dictSet_ne _ _ _ _ _ (by decide),
      dictGet_dictSet_ne _ _ _ _ _ (by decide), dictGet_dictSet_self]
  · rw [dictGet_dictSet_ne _ _ _ _ _ (by decide), dictGet_dictSet_ne _ _ _ _ _ (by decide),
      dictGet_dictSet_self]
  · rw [dictGet_dictSet_ne _ _ _ _ _ (by decide), dictGet_dictSet_self]
  · rw [dictGet_dictSet_self]

/-- Witness for C8 at remote version `"2.0.1"`. -/
theorem c8_witness :
    check_for_update (.ok { latest := some "2.0.1", note := none, url := none })
        = some { latest := some "2.0.1", note := none, url := none }
      ↔ tupLt (parse_version VERSION) (parse_version "2.0.1") = true :=
  (c8_version_comparison { latest := some "2.0.1", note := none, url := none }
    "2.0.1" rfl).1

/-- C5: when the new device list has the same serial set and the same
count as the stored list, only the device-count label is updated and
everything else (stored list, cards, empty-state flag) is left
unchanged; when the serial set or the count differs, the stored snapshot
is replaced and the cards are destroyed and rebuilt one per device in
listed order, or the empty state is shown for an empty list. -/
theorem c5_skip_or_rebuild (st : UiState) (devices : List DeviceInfo) :
    (pySetEq (st.current_devices.map (fun d => d.serial))
          (devices.map (fun d => d.serial)) = true →
      devices.length = st.current_devices.length →
      update_device_list st devices
          = { st with count_label := update_count_text devices.length }
        ∧ (update_device_list st devices).current_devices = st.current_devices
        ∧ (update_device_list st devices).device_cards = st.device_cards
        ∧ (update_device_list st devices).showing_empty = st.showing_empty)
    ∧ (¬(pySetEq (st.current_devices.map (fun d => d.serial))
            (devices.map (fun d => d.serial)) = true
          ∧ devices.length = st.current_devices.length) →
        (update_device_list st devices).current_devices = devices
        ∧ (update_device_list st devices).count_label = update_count_text devices.length
        ∧ (devices = [] →
            (update_device_list st devices).device_cards = []
            ∧ (update_device_list st devices).showing_empty = true)
        ∧ (¬devices = [] →
            (update_device_list st devices).device_cards = devices
            ∧ (update_device_list st devices).showing_empty = false)) := by
  constructor
  · intro h1 h2
    unfold update_device_list
    rw [if_pos ⟨h1, h2⟩]
    exact ⟨rfl, rfl, rfl, rfl⟩
  · intro hne
    unfold update_device_list
    rw [if_neg hne]
    by_cases he : devices = []
    · rw [if_pos he]
      exact ⟨rfl, rfl, fun _ => ⟨rfl, rfl⟩, fun hc => absurd he hc⟩
    · rw [if_neg he]
      exact ⟨rfl, rfl, fun hc => absurd hc he, fun _ => ⟨rfl, rfl⟩⟩

/-- Witness for C5: a poll returning the same single device skips
reconciliation, and a poll returning the empty list rebuilds into the
empty state. -/
theorem c5_witness :
    update_device_list
        { current_devices := [{ serial := "A", status := "device", props := [],
                                battery := none }],
          device_cards := [{ serial := "A", status := "device", props := [],
                             battery := none }],
          count_label := "1 device", showing_empty := false }
        [{ serial := "A", status := "device", props := [], battery := none }]
      = { current_devices := [{ serial := "A", status := "device", props := [],
                                battery := none }],
          device_cards := [{ serial := "A", status := "device", props := [],
                             battery := none }],
          count_label := "1 device", showing_empty := false }
    ∧ (update_device_list
        { current_devices := [{ serial := "A", status := "device", props := [],
                                battery := none }],
          device_cards := [{ serial := "A", status := "device", props := [],
                             battery := none }],
          count_label := "1 device", showing_empty := false }
        []).showing_empty = true :=
  ⟨(c5_skip_or_rebuild _ _).1 (by decide) (by decide) |>.1,
   ((c5_skip_or_rebuild _ _).2 (by decide) |>.2.2.1 rfl).2⟩

/-- C1: with the mirror tool present, a launch requested for a serial
whose tracked process is still running is rejected with the busy toast,
starts no launch thread, and leaves the sessions map unchanged; if the
tracked process has already exited, its stale entry is evicted before
the launch proceeds; and the subsequent registration of the new process
keeps at most one tracked entry for the serial. -/
theorem c1_busy_guard (m : Mirrors) (serial displayName : String) (proc : Proc) :
    (mLookup m serial = some proc → proc.exited = false →
      on_device_click true m serial displayName
        = { mirrors := m, launchStarted := false,
            events := [.toast ("Already mirroring " ++ displayName), .cardReset] })
    ∧ (mLookup m serial = some proc → proc.exited = true →
        (on_device_click true m serial displayName).mirrors = mErase m serial
        ∧ (on_device_click true m serial displayName).launchStarted = true
        ∧ mLookup (on_device_click true m serial displayName).mirrors serial = none)
    ∧ (mCount m serial ≤ 1 → ∀ newProc,
        mCount (mInsert (on_device_click true m serial displayName).mirrors serial newProc)
          serial ≤ 1) := by
  refine ⟨?_, ?_, ?_⟩
  · intro h hrun
    unfold on_device_click
    rw [if_neg (by decide), h]
    dsimp only
    rw [if_pos hrun]
  · intro h hex
    unfold on_device_click
    rw [if_neg (by decide), h]
    dsimp only
    rw [if_neg (by rw [hex]; decide)]
    exact ⟨rfl, rfl, mLookup_mErase_self m serial⟩
  · intro hc newProc
    unfold on_device_click
    rw [if_neg (by decide)]
    cases hm : mLookup m serial with
    | none =>
      dsimp only
      exact mCount_mInsert_le m serial newProc hc
    | some p =>
      dsimp only
      by_cases hrun : p.exited = false
      · rw [if_pos hrun]
        exact mCount_mInsert_le m serial newProc hc
      · rw [if_neg hrun]
        exact mCount_mInsert_le _ serial newProc (by rw [mCount_mErase_self]; decide)

/-- Witness for C1: a serial with a live tracked process is rejected as
busy, and a serial with an exited tracked process is evicted before the
new launch. -/
theorem c1_witness :
    on_device_click true [("S", { exited := false })] "S" "Pixel"
      = { mirrors := [("S", { exited := false })], launchStarted := false,
          events := [.toast ("Already mirroring " ++ "Pixel"), .cardReset] }
    ∧ (on_device_click true [("S", { exited := true })] "S" "Pixel").launchStarted = true
    ∧ mLookup (on_device_click true [("S", { exited := true })] "S" "Pixel").mirrors "S"
        = none :=
  ⟨(c1_busy_guard [("S", { exited := false })] "S" "Pixel" { exited := false }).1
      (by decide) rfl,
   ((c1_busy_guard [("S", { exited := true })] "S" "Pixel" { exited := true }).2.1
      (by decide) rfl).2⟩

/-- C7: for every launched mirror session — whether the spawn fails or
the process runs to exit with any output — the session-ended
notification (the card reset posted from the `finally` block) fires
exactly once, and afterwards the serial is absent from the live-sessions
map. -/
theorem c7_session_end_once (m : Mirrors) (serial : String) (out : LaunchOutcome) :
    ((launch m serial out).2.filter (fun e => e.2 = UiAction.cardReset)).length = 1
    ∧ mLookup (launch m serial out).1 serial = none := by
  cases out with
  | spawnFail msg =>
    constructor
    · simp [launch, List.filter]
    · exact mLookup_mErase_self m serial
  | ran stdoutLines stderrLines =>
    constructor
    · dsimp only [launch]
      rw [List.filter_append, List.filter_append,
        flatMap_monitor_filter_cardReset stdoutLines,
        flatMap_monitor_filter_cardReset stderrLines]
      simp [List.filter]
    · exact mLookup_mErase_self _ serial

end Tvini
